import Mathlib

/-!
Verification of the LibreRelayBot IRC-to-Nostr bridge.

This file gives a shallow embedding of the bridge's core logic and proves
properties about it:

* `Security.sanitizeMessage` (libre-relay-bot.js): strip control characters,
  `trim()`, `substring(0, 280)`.  Strings are modelled as `List Char`.
* `Security.createRateLimiter` (libre-relay-bot.js): a sliding-window rate
  limiter keyed by sender, max 5 requests per 60000 ms.  The JS `Map` is
  modelled as a function `String → List Int`; timestamps are `Int`
  (JS `Date.now()` arithmetic, where `now - windowMs` may be negative).
* `NostrClient.publishMessage` / `_publishToRelays` (libre-relay-bot.js):
  fan-out publish with `Promise.allSettled`; the network is modelled as an
  oracle `String → Bool` giving each relay URL's settled outcome, and the
  embedding additionally reports how many network connections were opened.
* `LibreRelayBotBridge._handleIRCMessage` / `_postToNostr`
  (libre-relay-bot.js): the per-message filter pipeline.
* `IRCClient` (lib/irc-client.js): the reconnect state machine, modelled as
  explicit state passing; pending `setTimeout` reconnect callbacks are kept
  in a list (the JS code never stores or clears these timeout handles).
-/

/-! ## Sanitization (Security.sanitizeMessage) -/

/-- A character removed by the regex `[\x00-\x1F\x7F]` in
`Security.sanitizeMessage`. -/
def isControlChar (c : Char) : Bool :=
  decide (c.toNat ≤ 31 ∨ c.toNat = 127)

/-- The ECMAScript `String.prototype.trim` whitespace set (WhiteSpace and
LineTerminator code points). -/
def isJsWhitespace (c : Char) : Bool :=
  decide (c.toNat = 0x09 ∨ c.toNat = 0x0A ∨ c.toNat = 0x0B ∨ c.toNat = 0x0C ∨
    c.toNat = 0x0D ∨ c.toNat = 0x20 ∨ c.toNat = 0xA0 ∨ c.toNat = 0x1680 ∨
    (0x2000 ≤ c.toNat ∧ c.toNat ≤ 0x200A) ∨ c.toNat = 0x2028 ∨
    c.toNat = 0x2029 ∨ c.toNat = 0x202F ∨ c.toNat = 0x205F ∨
    c.toNat = 0x3000 ∨ c.toNat = 0xFEFF)

/-- `message.replace(/[\x00-\x1F\x7F]/g, '')`. -/
def stripControl (l : List Char) : List Char :=
  l.filter (fun c => !isControlChar c)

/-- `String.prototype.trim`: drop whitespace from both ends. -/
def jsTrim (l : List Char) : List Char :=
  ((l.dropWhile isJsWhitespace).reverse.dropWhile isJsWhitespace).reverse

/-- `Security.sanitizeMessage` on an actual string: strip control
characters, trim, then `substring(0, 280)`. -/
def sanitizeMessage (l : List Char) : List Char :=
  (jsTrim (stripControl l)).take 280

/-- A JavaScript runtime value handed to `sanitizeMessage` (the function
begins with `if (typeof message !== 'string') return '';`). -/
inductive JSValue where
  | str (s : List Char)
  | num (n : Int)
  | boolV (b : Bool)
  | nullV
  | undefinedV
  | objV
deriving DecidableEq

/-- Whether `typeof message === 'string'`. -/
def JSValue.isStr : JSValue → Bool
  | .str _ => true
  | _ => false

/-- `Security.sanitizeMessage` including its non-string guard. -/
def sanitizeMessageJS : JSValue → List Char
  | .str s => sanitizeMessage s
  | _ => []

/-! ## Rate limiter (Security.createRateLimiter) -/

/-- The pruning loop
`while (userRequests.length && userRequests[0] < windowStart) userRequests.shift();`:
removes leading entries strictly older than `windowStart` and stops at the
first entry that is not old. -/
def pruneOld (windowStart : Int) : List Int → List Int
  | [] => []
  | t :: ts => if t < windowStart then pruneOld windowStart ts else t :: ts

/-- One check of the limiter closure for a single sender's window: prune,
reject if `userRequests.length >= maxRequests` (recording nothing), else
record `now` and accept.  Returns (accepted?, stored window). -/
def rateLimitCheck (maxRequests : Nat) (windowMs now : Int)
    (userRequests : List Int) : Bool × List Int :=
  let pruned := pruneOld (now - windowMs) userRequests
  if maxRequests ≤ pruned.length then (false, pruned)
  else (true, pruned ++ [now])

/-- The limiter closure returned by `Security.createRateLimiter`, acting on
the whole `requests` map (modelled as a total function defaulting to `[]`,
matching `if (!requests.has(key)) requests.set(key, []);`). -/
def rateLimiterCall (maxRequests : Nat) (windowMs : Int)
    (requests : String → List Int) (key : String) (now : Int) :
    Bool × (String → List Int) :=
  let r := rateLimitCheck maxRequests windowMs now (requests key)
  (r.1, fun k => if k = key then r.2 else requests k)

/-- Successive checks for one sender, threading the window; returns the
final stored window and the list of accept/reject results. -/
def runCalls : List Int → List Int → List Int × List Bool
  | [], st => (st, [])
  | now :: rest, st =>
    ((runCalls rest (rateLimitCheck 5 60000 now st).2).1,
     (rateLimitCheck 5 60000 now st).1 ::
       (runCalls rest (rateLimitCheck 5 60000 now st).2).2)

/-- Invariant of the limiter's stored map: every sender's window holds at
most `maxRequests` timestamps, in non-decreasing order, all at most
`bound` (the last observed clock value). -/
def RLInv (maxRequests : Nat) (bound : Int) (m : String → List Int) : Prop :=
  ∀ k : String, (m k).length ≤ maxRequests ∧
    List.Sorted (fun a b => a ≤ b) (m k) ∧ ∀ t ∈ m k, t ≤ bound

/-! ## Nostr publisher (NostrClient) -/

/-- The `{ success, published, failed }` object returned by
`NostrClient.publishMessage` and `_publishToRelays`. -/
structure PublishResult where
  success : Bool
  published : Nat
  failed : Nat
deriving DecidableEq

/-- The Nostr event assembled by `finalizeEvent` in
`NostrClient.publishMessage` (signature fields omitted): kind 1, the
content, the tag list and `created_at`. -/
structure NostrEvent where
  kind : Nat
  content : List Char
  tags : List (List String)
  created_at : Int
deriving DecidableEq

/-- The `NostrClient` instance data: configured relay URLs and the
`TEST_MODE` flag. -/
structure NostrClient where
  relays : List String
  testMode : Bool
deriving DecidableEq

/-- The event literal in `NostrClient.publishMessage`: hardcoded tags
`['t','sirlibre'], ['t','librerelaybot']` followed by the extra `tags`
argument (which every caller leaves at its default `[]`). -/
def buildEvent (content : List Char) (tags : List (List String)) (now : Int) :
    NostrEvent :=
  { kind := 1
    content := content
    tags := [["t", "sirlibre"], ["t", "librerelaybot"]] ++ tags
    created_at := now }

/-- `NostrClient._publishToRelays`: `Promise.allSettled` over one publish
attempt per configured relay.  `net url = true` models that relay's
promise fulfilling, `false` its rejecting; `allSettled` itself never
rejects, so the function is total and no error reaches the caller. -/
def publishToRelays (relays : List String) (net : String → Bool) :
    PublishResult :=
  let results := relays.map net
  let successful := (results.filter (fun r => r)).length
  let failed := (results.filter (fun r => !r)).length
  { success := decide (0 < successful), published := successful, failed := failed }

/-- `NostrClient.publishMessage`: build the event; in test mode return
`{ success: true, published: 0, failed: 0 }` without touching the network,
otherwise fan out to every relay.  The last component counts the network
connections opened (`Relay.connect` calls): one per configured relay in a
real publish, zero in test mode. -/
def publishMessage (c : NostrClient) (net : String → Bool)
    (content : List Char) (tags : List (List String)) (now : Int) :
    NostrEvent × PublishResult × Nat :=
  let event := buildEvent content tags now
  if c.testMode then
    (event, { success := true, published := 0, failed := 0 }, 0)
  else
    (event, publishToRelays c.relays net, c.relays.length)

/-- The default relay list from `Config.parseRelays`. -/
def defaultRelays : List String :=
  ["wss://relay.damus.io", "wss://relay.nostr.band", "wss://nostr.mom",
   "wss://relay.primal.net", "wss://chadf.nostr1.com"]

/-! ## Bridge filter pipeline (LibreRelayBotBridge) -/

/-- The configuration fields consulted by the message pipeline:
`config.app.targetBot` and `config.irc.channels`. -/
structure BridgeConfig where
  targetBot : String
  channels : List String
deriving DecidableEq

/-- Defaults: `TARGET_BOT || 'LibreRelayBot'`, `IRC_CHANNEL || '#SirLibre'`. -/
def defaultCfg : BridgeConfig :=
  { targetBot := "LibreRelayBot", channels := ["#SirLibre"] }

/-- What `_handleIRCMessage` / `_postToNostr` do with one message. -/
inductive RelayAction where
  | notTargetSender
  | rateLimited
  | emptyAfterSanitize
  | publish (content : List Char)
deriving DecidableEq

/-- `LibreRelayBotBridge._handleIRCMessage (from, to, message)` composed
with `_postToNostr`: drop if `from !== this.config.app.targetBot`; drop if
`!this.rateLimiter(from)` (the limiter is `createRateLimiter(5, 60000)`);
drop if the sanitized message is empty; otherwise publish the sanitized
text.  `msgFrom`/`msgTo` are the handler's `from`/`to` parameters; note
that `msgTo` (the channel) is never consulted.  Returns the action and the
updated rate-limiter map. -/
def handleIRCMessage (cfg : BridgeConfig) (m : String → List Int) (now : Int)
    (msgFrom msgTo : String) (message : JSValue) :
    RelayAction × (String → List Int) :=
  if msgFrom ≠ cfg.targetBot then (RelayAction.notTargetSender, m)
  else if (rateLimiterCall 5 60000 m msgFrom now).1 = false then
    (RelayAction.rateLimited, (rateLimiterCall 5 60000 m msgFrom now).2)
  else if sanitizeMessageJS message = [] then
    (RelayAction.emptyAfterSanitize, (rateLimiterCall 5 60000 m msgFrom now).2)
  else
    (RelayAction.publish (sanitizeMessageJS message),
     (rateLimiterCall 5 60000 m msgFrom now).2)

/-- The outbound event built for an approved message: `_postToNostr` calls
`publishMessage(sanitizedMessage)` with no extra tags.  Note the bridge
configuration plays no part in the event. -/
def eventForMessage (message : List Char) (now : Int) : NostrEvent :=
  buildEvent (sanitizeMessage message) [] now

/-- Modelled from the spec: the spec's outbound-post contract says the two
topic tags are "derived from configuration (channel name, target-sender
name)" and the README's post format shows the hashtags
`#SirLibre #LibreRelayBot`; so the spec-side derivation of a tag from a
configured name drops a leading `#` and lowercases the rest.  This
definition exists only to be compared against the code's hardcoded tags. -/
def specTagOfName (name : String) : String :=
  String.mk ((match name.toList with
    | c :: rest => if c = Char.ofNat 35 then rest else c :: rest
    | [] => []).map Char.toLower)

/-- Modelled from the spec: the pair of topic tags the spec says an
outbound post carries, derived from the configured channel and
target-sender names. -/
def specDerivedTags (cfg : BridgeConfig) : List (List String) :=
  [["t", specTagOfName (cfg.channels.headD "")],
   ["t", specTagOfName cfg.targetBot]]

/-- A non-default configuration (e.g. `IRC_CHANNEL=#Other`,
`TARGET_BOT=OtherBot`). -/
def cfgOther : BridgeConfig :=
  { targetBot := "OtherBot", channels := ["#Other"] }

/-! ## IRC client reconnect state machine (lib/irc-client.js)

The mutable fields of `IRCClient` are modelled as a record, and each method
or event handler as a state transition.  A pending reconnect `setTimeout`
is recorded by appending its delay to `reconnectTimers`; the JS code never
stores the handle returned by `setTimeout` and never calls `clearTimeout`,
so no transition other than the timer firing may remove an entry. -/

/-- `this.maxReconnectAttempts = 10`. -/
def maxReconnectAttempts : Nat := 10

/-- `this.reconnectDelay = 10000` (10 seconds, fixed — no backoff). -/
def reconnectDelay : Nat := 10000

/-- The mutable state of an `IRCClient`.  `hasClient` models
`this.client !== null`; `reconnectTimers` lists the delays of reconnect
timeouts that have been scheduled but have not yet fired. -/
structure IRCState where
  hasClient : Bool
  isConnected : Bool
  reconnectAttempts : Nat
  reconnecting : Bool
  keepAliveOn : Bool
  zncHealthOn : Bool
  reconnectTimers : List Nat
deriving DecidableEq

/-- The constructor's initial field values. -/
def initialIRCState : IRCState :=
  { hasClient := false, isConnected := false, reconnectAttempts := 0,
    reconnecting := false, keepAliveOn := false, zncHealthOn := false,
    reconnectTimers := [] }

/-- `stopKeepAlive()`: clear the keep-alive interval. -/
def stopKeepAlive (s : IRCState) : IRCState :=
  { s with keepAliveOn := false }

/-- `stopZncHealthCheck()`: clear the ZNC health interval. -/
def stopZncHealthCheck (s : IRCState) : IRCState :=
  { s with zncHealthOn := false }

/-- `attemptReconnect()`: skip if a reconnect is already in flight; if the
attempt counter is below the maximum, increment it and schedule a
`setTimeout(..., this.reconnectDelay)`; otherwise log and stop the
keep-alive interval (no timer is scheduled). -/
def attemptReconnect (s : IRCState) : IRCState :=
  if s.reconnecting then s
  else if s.reconnectAttempts < maxReconnectAttempts then
    { s with reconnecting := true,
             reconnectAttempts := s.reconnectAttempts + 1,
             reconnectTimers := s.reconnectTimers ++ [reconnectDelay] }
  else
    stopKeepAlive s

/-- `disconnect()`: stop both intervals, clear the `reconnecting` flag,
remove the client's listeners, close it and null it out.  The pending
reconnect timeouts are untouched: their handles were never stored, and the
timeout callback does not consult the `reconnecting` flag. -/
def disconnectCall (s : IRCState) : IRCState :=
  { stopZncHealthCheck (stopKeepAlive s) with
      reconnecting := false, hasClient := false, isConnected := false }

/-- `connect()`: first calls `this.disconnect()`, then builds a fresh
`irc.Client` and installs the event handlers. -/
def connectCall (s : IRCState) : IRCState :=
  { disconnectCall s with hasClient := true }

/-- The body of the `setTimeout` scheduled by `attemptReconnect`:
`this.reconnecting = false; if (!this.isConnected) this.connect();`.
Returns the new state and whether `connect()` was invoked. -/
def fireReconnectTimer (s : IRCState) : IRCState × Bool :=
  let s1 := { s with reconnecting := false,
                     reconnectTimers := s.reconnectTimers.drop 1 }
  if s1.isConnected then (s1, false) else (connectCall s1, true)

/-- The `registered` event handler: mark connected, reset the attempt
counter, start the keep-alive interval. -/
def onRegistered (s : IRCState) : IRCState :=
  { s with isConnected := true, reconnectAttempts := 0, keepAliveOn := true }

/-- The `close` event handler: mark disconnected, stop keep-alive, then
`attemptReconnect()`. -/
def onClose (s : IRCState) : IRCState :=
  attemptReconnect (stopKeepAlive { s with isConnected := false })

/-- One failed reconnect cycle: the pending timer fires (invoking
`connect()`), the connection attempt fails and the server socket closes,
triggering the `close` handler. -/
def failedConnectCycle (s : IRCState) : IRCState :=
  onClose (fireReconnectTimer s).1

/-- Iterate `failedConnectCycle`. -/
def iterCycle : Nat → IRCState → IRCState
  | 0, s => s
  | n + 1, s => iterCycle n (failedConnectCycle s)

/-- State after the initial `connect()` fails: the `close` handler has run
once, so reconnect attempt 1 is scheduled. -/
def sAfterFirstFailure : IRCState :=
  onClose (connectCall initialIRCState)

/-- The terminal state after `maxReconnectAttempts` consecutive failed
reconnects: disconnected, counter at the maximum, nothing scheduled. -/
def sStuck : IRCState :=
  { hasClient := true, isConnected := false, reconnectAttempts := 10,
    reconnecting := false, keepAliveOn := false, zncHealthOn := false,
    reconnectTimers := [] }

/-! ## Helper lemmas -/

lemma filter_length_split (l : List Bool) :
    (l.filter (fun r => r)).length + (l.filter (fun r => !r)).length
      = l.length := by
  induction l with
  | nil => rfl
  | cons a t ih => cases a <;> simp [List.filter_cons] <;> omega

lemma pruneOld_sublist (ws : Int) (l : List Int) : List.Sublist (pruneOld ws l) l := by
  induction l with
  | nil => simp [pruneOld]
  | cons t ts ih =>
    rw [pruneOld]
    split
    · exact ih.cons t
    · exact List.Sublist.refl _

lemma pruneOld_length_le (ws : Int) (l : List Int) :
    (pruneOld ws l).length ≤ l.length :=
  (pruneOld_sublist ws l).length_le

lemma dropWhile_eq_self_of_head (p : Char → Bool) (l : List Char)
    (h : ∀ c, l.head? = some c → p c = false) : l.dropWhile p = l := by
  cases l with
  | nil => rfl
  | cons a t => simp [List.dropWhile_cons, h a rfl]

lemma head_dropWhile_not (p : Char → Bool) (l : List Char) (c : Char)
    (h : (l.dropWhile p).head? = some c) : p c = false := by
  induction l with
  | nil => simp [List.dropWhile] at h
  | cons a t ih =>
    by_cases hpa : p a = true
    · rw [List.dropWhile_cons, if_pos hpa] at h
      exact ih h
    · rw [List.dropWhile_cons, if_neg hpa] at h
      simp at h
      subst h
      simpa using hpa

lemma getLast_dropWhile_eq (p : Char → Bool) (l : List Char)
    (h : l.dropWhile p ≠ []) : (l.dropWhile p).getLast? = l.getLast? := by
  induction l with
  | nil => simp [List.dropWhile] at h
  | cons a t ih =>
    by_cases hpa : p a = true
    · rw [List.dropWhile_cons, if_pos hpa] at h ⊢
      rw [ih h]
      cases t with
      | nil => simp [List.dropWhile] at h
      | cons b u => simp [List.getLast?_cons_cons]
    · rw [List.dropWhile_cons, if_neg hpa]

lemma jsTrim_head_eq_self (l : List Char) :
    (jsTrim l).dropWhile isJsWhitespace = jsTrim l := by
  apply dropWhile_eq_self_of_head
  intro c hc
  unfold jsTrim at hc
  rw [List.head?_reverse] at hc
  have hne : List.dropWhile isJsWhitespace
      ((List.dropWhile isJsWhitespace l).reverse) ≠ [] := by
    intro he
    rw [he] at hc
    simp at hc
  rw [getLast_dropWhile_eq _ _ hne, List.getLast?_reverse] at hc
  exact head_dropWhile_not _ _ _ hc

lemma dropWhile_take_of_eq_self (p : Char → Bool) (w : List Char) (n : Nat)
    (h : w.dropWhile p = w) : (w.take n).dropWhile p = w.take n := by
  apply dropWhile_eq_self_of_head
  intro c hc
  cases w with
  | nil => simp at hc
  | cons a t =>
    cases n with
    | zero => simp at hc
    | succ k =>
      have hpa : p a = false := head_dropWhile_not p (a :: t) a (by rw [h]; rfl)
      rw [List.take_succ_cons] at hc
      simp at hc
      rw [hc] at hpa
      exact hpa

lemma sanitize_sublist_strip (x : List Char) :
    List.Sublist (sanitizeMessage x) (stripControl x) := by
  unfold sanitizeMessage
  refine List.Sublist.trans (List.take_sublist _ _) ?_
  unfold jsTrim
  have h1 : List.Sublist
      (List.dropWhile isJsWhitespace
        ((List.dropWhile isJsWhitespace (stripControl x)).reverse))
      ((List.dropWhile isJsWhitespace (stripControl x)).reverse) :=
    List.dropWhile_sublist _
  have h2 := h1.reverse
  rw [List.reverse_reverse] at h2
  exact h2.trans (List.dropWhile_sublist _)

lemma sanitize_no_control (x : List Char) :
    ∀ c ∈ sanitizeMessage x, isControlChar c = false := by
  intro c hc
  have hmem := (sanitize_sublist_strip x).subset hc
  rw [stripControl] at hmem
  rw [List.mem_filter] at hmem
  simpa using hmem.2

lemma sanitize_length_le (x : List Char) : (sanitizeMessage x).length ≤ 280 := by
  unfold sanitizeMessage
  exact List.length_take_le _ _

/-! ## Claim C1 -/

/-- Claim C1, counterexample: the claim says a message is relayed only if
its channel equals the configured target channel, but `_handleIRCMessage`
never compares `to` against `config.irc.channels`.  A message from the
target sender on channel `#SomewhereElse` (not the configured `#SirLibre`)
is published anyway. -/
theorem c1_channel_not_checked_cx :
    (handleIRCMessage defaultCfg (fun _ => []) 0 "LibreRelayBot"
        "#SomewhereElse" (JSValue.str ("hello".toList))).1
      = RelayAction.publish ("hello".toList) ∧
    defaultCfg.channels = ["#SirLibre"] ∧
    ("#SomewhereElse" : String) ≠ "#SirLibre" := by
  refine ⟨by decide, rfl, by decide⟩

/-- Claim C1, amended: a message is relayed iff its sender equals the
configured target sender (exact, case-sensitive), the per-sender rate
limit is not exceeded at that moment, and sanitizing its text yields a
non-empty string; the channel is never consulted.  Any message failing one
of these conjuncts yields a non-publish action. -/
theorem c1_relay_iff_amended (cfg : BridgeConfig) (m : String → List Int)
    (now : Int) (msgFrom msgTo : String) (message : JSValue) :
    (∃ c, (handleIRCMessage cfg m now msgFrom msgTo message).1
        = RelayAction.publish c)
      ↔ msgFrom = cfg.targetBot
        ∧ (rateLimiterCall 5 60000 m msgFrom now).1 = true
        ∧ sanitizeMessageJS message ≠ [] := by
  unfold handleIRCMessage
  split_ifs with h1 h2 h3
  · simp only [reduceCtorEq, exists_false, false_iff]
    intro h
    exact h1 h.1
  · simp only [reduceCtorEq, exists_false, false_iff]
    intro h
    rw [h.2.1] at h2
    exact Bool.true_eq_false.mp h2
  · simp only [reduceCtorEq, exists_false, false_iff]
    intro h
    exact h.2.2 h3
  · simp only [RelayAction.publish.injEq, exists_eq', true_iff]
    refine ⟨not_not.mp h1, ?_, h3⟩
    cases hb : (rateLimiterCall 5 60000 m msgFrom now).1 with
    | false => exact absurd hb h2
    | true => rfl

/-! ## Claim C2 -/

/-- Claim C2, counterexample: with the five default relays configured and
test mode on, `publishMessage` reports `published: 0`, not `succeeded: N`
— the synthetic outcome is `{ success: true, published: 0, failed: 0 }`,
so the claim's `{attempted:N, succeeded:N, failed:0}` is wrong about the
succeeded count. -/
theorem c2_dry_run_published_zero_cx :
    defaultRelays.length = 5 ∧
    (publishMessage { relays := defaultRelays, testMode := true }
        (fun _ => true) ("hello".toList) [] 0).2.1.published = 0 ∧
    (publishMessage { relays := defaultRelays, testMode := true }
        (fun _ => true) ("hello".toList) [] 0).2.1.published
      ≠ defaultRelays.length := by
  refine ⟨rfl, rfl, by decide⟩

/-- Claim C2, amended: in test mode `publishMessage` opens zero network
connections and returns the synthetic outcome
`{ success: true, published: 0, failed: 0 }` — successful from the
caller's perspective and of the same shape as a real publish, but
reporting zero published relays, regardless of how many endpoints are
configured. -/
theorem c2_dry_run_amended (relays : List String) (net : String → Bool)
    (content : List Char) (tags : List (List String)) (now : Int) :
    publishMessage { relays := relays, testMode := true } net content tags now
      = (buildEvent content tags now,
         { success := true, published := 0, failed := 0 }, 0) := rfl

/-! ## Claim C6 -/

/-- Claim C6: starting from the first connection failure, ten consecutive
failed reconnect cycles drive the client into `sStuck`, where the attempt
counter equals `maxReconnectAttempts`; there `attemptReconnect` is the
identity (in particular it schedules no timer and the state stays
disconnected).  Moreover a firing reconnect timer invokes `connect()` only
when the client is not registered (`isConnected = false`), and every
scheduled reconnect waits the fixed `reconnectDelay` of 10000 ms. -/
theorem c6_reconnect_bounded :
    iterCycle 10 sAfterFirstFailure = sStuck ∧
    sStuck.reconnectAttempts = maxReconnectAttempts ∧
    attemptReconnect sStuck = sStuck ∧
    sStuck.isConnected = false ∧
    sStuck.reconnectTimers = [] ∧
    (∀ s : IRCState, s.isConnected = true → (fireReconnectTimer s).2 = false) ∧
    (∀ s : IRCState, s.reconnecting = false →
      s.reconnectAttempts < maxReconnectAttempts →
      (attemptReconnect s).reconnectTimers
        = s.reconnectTimers ++ [reconnectDelay]) ∧
    reconnectDelay = 10000 := by
  refine ⟨by decide, rfl, by decide, rfl, rfl, ?_, ?_, rfl⟩
  · intro s hs
    simp [fireReconnectTimer, hs]
  · intro s h1 h2
    simp [attemptReconnect, h1, h2]

/-- Witness for the quantified conjuncts of `c6_reconnect_bounded`. -/
theorem c6_reconnect_bounded_witness :
    (fireReconnectTimer (onRegistered initialIRCState)).2 = false ∧
    (attemptReconnect initialIRCState).reconnectTimers
      = initialIRCState.reconnectTimers ++ [reconnectDelay] :=
  ⟨c6_reconnect_bounded.2.2.2.2.2.1 (onRegistered initialIRCState) rfl,
   c6_reconnect_bounded.2.2.2.2.2.2.1 initialIRCState rfl (by decide)⟩

/-! ## Claim C7 -/

/-- Claim C7 is wrong about the code: `disconnect()` cannot cancel a
pending reconnect timeout, because `attemptReconnect` never stores the
handle returned by `setTimeout` and no `clearTimeout` exists; setting
`this.reconnecting = false` (commented "Stop any pending reconnections")
does not stop it, since the timeout callback only consults `isConnected`.
Concretely: after a connection failure schedules a reconnect, an explicit
`disconnect()` leaves the 10 s timeout pending, and when it fires it finds
`isConnected = false` and invokes `connect()` — the component is not
inert. -/
theorem c7_disconnect_timer_fires :
    (disconnectCall sAfterFirstFailure).reconnectTimers = [reconnectDelay] ∧
    (fireReconnectTimer (disconnectCall sAfterFirstFailure)).2 = true ∧
    (fireReconnectTimer (disconnectCall sAfterFirstFailure)).1.hasClient
      = true := by
  refine ⟨by decide, by decide, by decide⟩

/-! ## Claim C8 -/

/-- Claim C8, counterexample: the topic tags are the hardcoded constants
`sirlibre` and `librerelaybot`, not values derived from the configuration.
With `IRC_CHANNEL=#Other` and `TARGET_BOT=OtherBot` the outbound event
still carries the default-named tags, differing from the spec's
config-derived tags; with the default configuration the two coincide. -/
theorem c8_tags_not_from_config_cx :
    (eventForMessage ("hello".toList) 0).tags ≠ specDerivedTags cfgOther ∧
    (eventForMessage ("hello".toList) 0).tags = specDerivedTags defaultCfg := by
  refine ⟨by decide, by decide⟩

/-- Claim C8, amended: for every approved message the outbound post is the
sanitized text (at most 280 characters) plus exactly the two fixed,
hardcoded topic tags `sirlibre` and `librerelaybot` (which happen to match
the default channel and target-sender names but are not derived from the
configuration). -/
theorem c8_tags_amended (message : List Char) (now : Int) :
    (eventForMessage message now).tags
      = [["t", "sirlibre"], ["t", "librerelaybot"]] ∧
    (eventForMessage message now).tags.length = 2 ∧
    (eventForMessage message now).content = sanitizeMessage message ∧
    (eventForMessage message now).content.length ≤ 280 ∧
    (eventForMessage message now).kind = 1 :=
  ⟨rfl, rfl, rfl, sanitize_length_le message, rfl⟩

/-! ## Claim C4 -/

lemma rateLimitCheck_accept (now : Int) (st : List Int)
    (hlen : st.length < 5)
    (hhead : ∀ t, st.head? = some t → ¬ t < now - 60000) :
    rateLimitCheck 5 60000 now st = (true, st ++ [now]) := by
  have hp : pruneOld (now - 60000) st = st := by
    cases st with
    | nil => rfl
    | cons a ts => simp [pruneOld, hhead a rfl]
  rw [rateLimitCheck]
  simp only [hp]
  rw [if_neg (by omega)]

lemma rateLimitCheck_reject (now : Int) (st : List Int)
    (hlen : 5 ≤ st.length)
    (hhead : ∀ t, st.head? = some t → ¬ t < now - 60000) :
    rateLimitCheck 5 60000 now st = (false, st) := by
  have hp : pruneOld (now - 60000) st = st := by
    cases st with
    | nil => rfl
    | cons a ts => simp [pruneOld, hhead a rfl]
  rw [rateLimitCheck]
  simp only [hp]
  rw [if_pos (by omega)]

/-- Claim C4: with max 5 and a 60000 ms window, five messages from one
sender at non-decreasing times `t1 ≤ … ≤ t5` are all accepted and their
timestamps recorded; a 6th message at `t6` within 60 s of the 1st
(`t6 ≤ t1 + 60000`) is rejected and records no timestamp (the stored
window is unchanged); and a message arriving 61 s after the 1st is
accepted, the expired leading entry having been pruned. -/
theorem c4_rate_limit_window (t1 t2 t3 t4 t5 t6 : Int)
    (h12 : t1 ≤ t2) (h23 : t2 ≤ t3) (h34 : t3 ≤ t4) (h45 : t4 ≤ t5)
    (h56 : t5 ≤ t6) (hwin : t6 ≤ t1 + 60000) :
    runCalls [t1, t2, t3, t4, t5] []
      = ([t1, t2, t3, t4, t5], [true, true, true, true, true]) ∧
    rateLimitCheck 5 60000 t6 [t1, t2, t3, t4, t5]
      = (false, [t1, t2, t3, t4, t5]) ∧
    (rateLimitCheck 5 60000 (t1 + 61000) [t1, t2, t3, t4, t5]).1 = true := by
  have k1 : rateLimitCheck 5 60000 t1 [] = (true, [t1]) :=
    rateLimitCheck_accept _ _ (by simp) (by intro t h; simp at h)
  have k2 : rateLimitCheck 5 60000 t2 [t1] = (true, [t1, t2]) :=
    rateLimitCheck_accept _ _ (by simp)
      (by intro t h; simp at h; omega)
  have k3 : rateLimitCheck 5 60000 t3 [t1, t2] = (true, [t1, t2, t3]) :=
    rateLimitCheck_accept _ _ (by simp)
      (by intro t h; simp at h; omega)
  have k4 : rateLimitCheck 5 60000 t4 [t1, t2, t3]
      = (true, [t1, t2, t3, t4]) :=
    rateLimitCheck_accept _ _ (by simp)
      (by intro t h; simp at h; omega)
  have k5 : rateLimitCheck 5 60000 t5 [t1, t2, t3, t4]
      = (true, [t1, t2, t3, t4, t5]) :=
    rateLimitCheck_accept _ _ (by simp)
      (by intro t h; simp at h; omega)
  refine ⟨?_, ?_, ?_⟩
  · simp [runCalls, k1, k2, k3, k4, k5]
  · exact rateLimitCheck_reject _ _ (by simp)
      (by intro t h; simp at h; omega)
  · rw [rateLimitCheck]
    have hp : pruneOld (t1 + 61000 - 60000) [t1, t2, t3, t4, t5]
        = pruneOld (t1 + 61000 - 60000) [t2, t3, t4, t5] := by
      rw [pruneOld, if_pos (by omega)]
    simp only [hp]
    rw [if_neg ?_]
    have := pruneOld_length_le (t1 + 61000 - 60000) [t2, t3, t4, t5]
    simp at this
    omega

/-- Witness for `c4_rate_limit_window` at concrete times 0 s, 10 s, 20 s,
30 s, 40 s, with the 6th message at 50 s and the late message at 61 s. -/
theorem c4_rate_limit_window_witness :
    runCalls [0, 10000, 20000, 30000, 40000] []
      = ([0, 10000, 20000, 30000, 40000],
         [true, true, true, true, true]) ∧
    rateLimitCheck 5 60000 50000 [0, 10000, 20000, 30000, 40000]
      = (false, [0, 10000, 20000, 30000, 40000]) ∧
    (rateLimitCheck 5 60000 (0 + 61000) [0, 10000, 20000, 30000, 40000]).1
      = true :=
  c4_rate_limit_window 0 10000 20000 30000 40000 50000 (by norm_num)
    (by norm_num) (by norm_num) (by norm_num) (by norm_num) (by norm_num)

/-! ## Claim C5 -/

/-- Claim C5: a fan-out publish over 5 configured endpoints of which
exactly 2 fail settles every endpoint (published + failed = 5, attempts
are independent) and returns `{ success: true, published: 3, failed: 2 }`;
`_publishToRelays` is built on `Promise.allSettled`, modelled here as a
total function, so no endpoint failure raises to the caller. -/
theorem c5_fanout_partial_failure (relays : List String)
    (net : String → Bool) (hlen : relays.length = 5)
    (hfail : ((relays.map net).filter (fun r => !r)).length = 2) :
    publishToRelays relays net
      = { success := true, published := 3, failed := 2 } ∧
    (publishToRelays relays net).published
      + (publishToRelays relays net).failed = relays.length := by
  have hsplit := filter_length_split (relays.map net)
  rw [List.length_map, hlen] at hsplit
  have hsucc : ((relays.map net).filter (fun r => r)).length = 3 := by omega
  constructor
  · rw [publishToRelays]
    simp only [hsucc, hfail]
    rfl
  · rw [publishToRelays]
    simp only [hsucc, hfail, hlen]

/-- Witness for `c5_fanout_partial_failure`: the five default relays with
a network on which exactly `nostr.mom` and `chadf.nostr1.com` fail. -/
theorem c5_fanout_partial_failure_witness :
    publishToRelays defaultRelays
        (fun u => !(u == "wss://nostr.mom" || u == "wss://chadf.nostr1.com"))
      = { success := true, published := 3, failed := 2 } ∧
    (publishToRelays defaultRelays
        (fun u => !(u == "wss://nostr.mom" || u == "wss://chadf.nostr1.com"))).published
      + (publishToRelays defaultRelays
        (fun u => !(u == "wss://nostr.mom" || u == "wss://chadf.nostr1.com"))).failed
      = defaultRelays.length :=
  c5_fanout_partial_failure defaultRelays
    (fun u => !(u == "wss://nostr.mom" || u == "wss://chadf.nostr1.com"))
    (by decide) (by decide)

/-! ## Claim C9 -/

/-- Claim C9: for every non-string input value, `sanitizeMessage` returns
the empty string (its first line is
`if (typeof message !== 'string') return '';`), and consequently the
pipeline never publishes such a message — it is dropped as empty after
sanitization, with no exception raised (the embedding is total). -/
theorem c9_nonstring_sanitize_empty (cfg : BridgeConfig)
    (m : String → List Int) (now : Int) (msgFrom msgTo : String)
    (v : JSValue) (h : v.isStr = false) :
    sanitizeMessageJS v = [] ∧
    ∀ c, (handleIRCMessage cfg m now msgFrom msgTo v).1
        ≠ RelayAction.publish c := by
  have hempty : sanitizeMessageJS v = [] := by
    cases v with
    | str s => simp [JSValue.isStr] at h
    | num n => rfl
    | boolV b => rfl
    | nullV => rfl
    | undefinedV => rfl
    | objV => rfl
  refine ⟨hempty, ?_⟩
  intro c
  unfold handleIRCMessage
  rw [if_pos hempty]
  split_ifs <;> simp

/-- Witness for `c9_nonstring_sanitize_empty` at the value `null`. -/
theorem c9_nonstring_sanitize_empty_witness :
    JSValue.isStr JSValue.nullV = false ∧
    (sanitizeMessageJS JSValue.nullV = [] ∧
     ∀ c, (handleIRCMessage defaultCfg (fun _ => []) 0 "LibreRelayBot"
         "#SirLibre" JSValue.nullV).1 ≠ RelayAction.publish c) :=
  ⟨rfl, c9_nonstring_sanitize_empty defaultCfg (fun _ => []) 0
    "LibreRelayBot" "#SirLibre" JSValue.nullV rfl⟩

/-! ## Claim C3 -/

/-- A 281-character input: 279 letters, a space, one more letter.
Truncation to 280 cuts after the space, and the second sanitization trims
that now-trailing space. -/
def c3x : List Char := List.replicate 279 'a' ++ (" b".toList)

set_option maxRecDepth 4000 in
/-- Claim C3, counterexample: sanitization is not idempotent.  On `c3x`
the first pass yields 279 letters followed by a space (truncation exposed
a trailing space), and the second pass trims it, yielding a different,
shorter string. -/
theorem c3_sanitize_not_idempotent_cx :
    sanitizeMessage (sanitizeMessage c3x) ≠ sanitizeMessage c3x := by decide

/-- Claim C3, amended: sanitization is idempotent on every input whose
sanitized form does not end in a whitespace character — truncation to 280
characters can expose a trailing space that only a second pass trims; in
all other respects strip/trim/truncate is stable under repetition. -/
theorem c3_sanitize_idempotent_amended (x : List Char)
    (h : (sanitizeMessage x).getLast?.all (fun c => !isJsWhitespace c)
      = true) :
    sanitizeMessage (sanitizeMessage x) = sanitizeMessage x := by
  have hstrip : stripControl (sanitizeMessage x) = sanitizeMessage x := by
    rw [stripControl, List.filter_eq_self]
    intro c hc
    simp [sanitize_no_control x c hc]
  have hlen : (sanitizeMessage x).length ≤ 280 := sanitize_length_le x
  have hhead : (sanitizeMessage x).dropWhile isJsWhitespace
      = sanitizeMessage x := by
    rw [sanitizeMessage]
    exact dropWhile_take_of_eq_self _ _ _ (jsTrim_head_eq_self _)
  have htail : (sanitizeMessage x).reverse.dropWhile isJsWhitespace
      = (sanitizeMessage x).reverse := by
    apply dropWhile_eq_self_of_head
    intro c hc
    rw [List.head?_reverse] at hc
    rw [hc] at h
    simpa [Option.all] using h
  have htrim : jsTrim (sanitizeMessage x) = sanitizeMessage x := by
    rw [jsTrim, hhead, htail, List.reverse_reverse]
  calc sanitizeMessage (sanitizeMessage x)
      = (jsTrim (stripControl (sanitizeMessage x))).take 280 := rfl
    _ = sanitizeMessage x := by
        rw [hstrip, htrim, List.take_of_length_le hlen]

/-- Witness for `c3_sanitize_idempotent_amended` on the input `" hi "`,
whose sanitized form `"hi"` ends in a non-whitespace character. -/
theorem c3_sanitize_idempotent_amended_witness :
    ((sanitizeMessage (" hi ".toList)).getLast?.all
        (fun c => !isJsWhitespace c) = true) ∧
    sanitizeMessage (sanitizeMessage (" hi ".toList))
      = sanitizeMessage (" hi ".toList) :=
  ⟨by decide, c3_sanitize_idempotent_amended (" hi ".toList) (by decide)⟩

/-! ## Claim C10 -/

/-- Claim C10: the limiter preserves its window invariant across every
check, provided the clock is monotone (each call's `Date.now()` is at
least every previously recorded timestamp): afterwards every sender's
stored window still holds at most 5 timestamps in non-decreasing order
(bounded by the new clock value), because a timestamp is appended only
when, after pruning, fewer than 5 entries remain, and pruning only
removes entries. -/
theorem c10_rate_limiter_invariant (m : String → List Int)
    (bound now : Int) (key : String)
    (hinv : RLInv 5 bound m) (hmono : bound ≤ now) :
    RLInv 5 now (rateLimiterCall 5 60000 m key now).2 := by
  have hstep : ∀ st : List Int, st.length ≤ 5 →
      List.Sorted (fun a b => a ≤ b) st → (∀ t ∈ st, t ≤ bound) →
      (rateLimitCheck 5 60000 now st).2.length ≤ 5 ∧
      List.Sorted (fun a b => a ≤ b) (rateLimitCheck 5 60000 now st).2 ∧
      ∀ t ∈ (rateLimitCheck 5 60000 now st).2, t ≤ now := by
    intro st hlen hsort hbd
    have hsub : List.Sublist (pruneOld (now - 60000) st) st :=
      pruneOld_sublist _ _
    rw [rateLimitCheck]
    split_ifs with hfull
    · exact ⟨hsub.length_le.trans hlen,
        List.Pairwise.sublist hsub hsort,
        fun t ht => (hbd t (hsub.subset ht)).trans hmono⟩
    · refine ⟨?_, ?_, ?_⟩
      · dsimp only
        rw [List.length_append]
        simp only [List.length_singleton]
        omega
      · dsimp only
        rw [List.Sorted, List.pairwise_append]
        refine ⟨List.Pairwise.sublist hsub hsort, by simp, ?_⟩
        intro a ha b hb
        rw [List.mem_singleton] at hb
        subst hb
        exact (hbd a (hsub.subset ha)).trans hmono
      · intro t ht
        dsimp only at ht
        rw [List.mem_append, List.mem_singleton] at ht
        cases ht with
        | inl hl => exact (hbd t (hsub.subset hl)).trans hmono
        | inr hr => exact le_of_eq hr
  intro k
  by_cases hk : k = key
  · subst hk
    obtain ⟨hlenK, hsortK, hbdK⟩ := hinv k
    have hval : (rateLimiterCall 5 60000 m k now).2 k
        = (rateLimitCheck 5 60000 now (m k)).2 := by
      simp [rateLimiterCall]
    rw [hval]
    exact hstep (m k) hlenK hsortK hbdK
  · obtain ⟨hlen, hsort, hbd⟩ := hinv k
    have hval : (rateLimiterCall 5 60000 m key now).2 k = m k := by
      simp [rateLimiterCall, hk]
    rw [hval]
    exact ⟨hlen, hsort, fun t ht => (hbd t ht).trans hmono⟩

/-- Witness for `c10_rate_limiter_invariant`: one call on the initially
empty map, which trivially satisfies the invariant at clock 0. -/
theorem c10_rate_limiter_invariant_witness :
    RLInv 5 7 (rateLimiterCall 5 60000 (fun _ => []) "LibreRelayBot" 7).2 :=
  c10_rate_limiter_invariant (fun _ => []) 0 7 "LibreRelayBot"
    (fun _ => ⟨by simp, List.sorted_nil, by simp⟩) (by norm_num)
